import Mathlib

/-!
Shallow embedding of the 25AA1024 serial-EEPROM driver (25AA1024.h / .c).

The driver is straight-line C over two external collaborators:
  * a byte transport (SPI_Write_Byte / SPI_Read_Byte from TinySPI), and
  * the AVR GPIO registers ContPort (PORTA, output latch), RContPort (PINA,
    read-back) and ContDDR (DDRA).
We model the externals as an oracle `Env`: the k-th SPI byte write either
succeeds or fails, the k-th SPI byte read yields a success flag and a byte,
and the k-th read of RContPort yields the 8-bit value seen on the pins.
The driver state `St` carries the ContPort output latch, the ContDDR
register, the three oracle cursors, and the trace of bytes handed to the
transport (oldest first).

Machine integers: ContPort/ContDDR are 8-bit registers, modelled as Nat kept
below 256 by masking exactly where the C masks (the `&= ~(1<<b)` of an 8-bit
register is `&&& (0xFF ^^^ (1 <<< b))`).  `short chip` may be negative, so
chip indices are Int.  Addresses (`long`, used only with nonnegative device
addresses below 2^24) and bytes are Nat.
-/

set_option autoImplicit false
set_option linter.unusedVariables false
set_option linter.unnecessarySeqFocus false

namespace EEPROM

-- Result codes (25AA1024.h)
def MEMSUCC : Nat := 0
def MEMFAIL : Nat := 2
def MEMTRUE : Nat := 1
def MEMFALSE : Nat := 0

-- WP_USED is MEMFALSE in the shipped configuration
def WP_USED : Nat := MEMFALSE

-- Device geometry
def PAGE_SIZE : Nat := 256
def NUM_PAGES : Nat := 512
def MEMSIZE : Nat := 0x01FFFF

-- Highest addresses of the UNPROTECTED part of memory per block-protection level
def BP00 : Nat := 0x01FFFF
def BP01 : Nat := 0x017FFF
def BP10 : Nat := 0x00FFFF
def BP11 : Nat := 0x000000

-- Memory commands
def MREAD : Nat := 0x03
def MWRITE : Nat := 0x02
def MWREN : Nat := 0x06
def MWRDI : Nat := 0x04
def MRDSR : Nat := 0x05
def MWRSR : Nat := 0x01
def MPE : Nat := 0x42
def MSE : Nat := 0xD8
def MCE : Nat := 0xC7
def MRDID : Nat := 0xAB
def MDPD : Nat := 0xB9

-- Status register bit positions
def MWIP : Nat := 0
def MWEL : Nat := 1

-- Manufacturer's ID
def MDEVICE : Nat := 0x29

-- Control-pin numbers on PORTA: PORTAn is the bit number n in avr/io.h
def CS0 : Nat := 0
def CS1 : Nat := 1
def CS2 : Nat := 2
def CS3 : Nat := 3
def WP0 : Nat := 4
def WP1 : Nat := 5
def WP2 : Nat := 6
def WP3 : Nat := 7

/-- Oracle for the externals: outcome of the k-th SPI byte write, of the k-th
SPI byte read (success flag and byte), and the value seen on the k-th read of
the RContPort (PINA) pin-input register. -/
structure Env where
  spiW : Nat → Bool
  spiR : Nat → Bool × Nat
  pin : Nat → Nat

/-- Driver-visible machine state: the ContPort (PORTA) output latch, the
ContDDR (DDRA) direction register, the three oracle cursors, and the trace of
bytes handed to SPI_Write_Byte (oldest first). -/
structure St where
  port : Nat
  ddr : Nat
  wIdx : Nat
  rIdx : Nat
  pIdx : Nat
  sent : List Nat
  deriving DecidableEq, Repr

/-- GetCS: maps the chip number to its chip-select pin; the switch statement
falls back to CS0 in the default branch. -/
def GetCS (chip : Int) : Nat :=
  if chip = 0 then CS0
  else if chip = 1 then CS1
  else if chip = 2 then CS2
  else if chip = 3 then CS3
  else CS0

/-- GetWP: maps the chip number to its write-protect pin; the switch statement
falls back to WP0 in the default branch. -/
def GetWP (chip : Int) : Nat :=
  if chip = 0 then WP0
  else if chip = 1 then WP1
  else if chip = 2 then WP2
  else if chip = 3 then WP3
  else WP0

/-- SendByte: hands one byte to SPI_Write_Byte and propagates its result. -/
def SendByte (env : Env) (byte : Nat) (s : St) : Nat × St :=
  (if env.spiW s.wIdx then MEMSUCC else MEMFAIL,
   { s with wIdx := s.wIdx + 1, sent := s.sent ++ [byte] })

/-- ReadByte: reads one byte via SPI_Read_Byte; returns (result, byte, state). -/
def ReadByte (env : Env) (s : St) : Nat × Nat × St :=
  (if (env.spiR s.rIdx).1 then MEMSUCC else MEMFAIL,
   (env.spiR s.rIdx).2,
   { s with rIdx := s.rIdx + 1 })

/-- SetCS: drives the chip-select output high (`ContPort |= (1<<CCS)`), then
reads RContPort back; succeeds iff the read-back has the bit set. -/
def SetCS (env : Env) (chip : Int) (s : St) : Nat × St :=
  let CCS := GetCS chip
  let s1 := { s with port := s.port ||| (1 <<< CCS) }
  let temp := env.pin s1.pIdx
  let s2 := { s1 with pIdx := s1.pIdx + 1 }
  (if temp &&& (1 <<< CCS) ≠ 0 then MEMSUCC else MEMFAIL, s2)

/-- ClearCS: drives the chip-select output low (`ContPort &= ~(1<<CCS)` on the
8-bit latch), then reads RContPort back; succeeds iff the bit reads clear. -/
def ClearCS (env : Env) (chip : Int) (s : St) : Nat × St :=
  let CCS := GetCS chip
  let s1 := { s with port := s.port &&& (0xFF ^^^ (1 <<< CCS)) }
  let temp := env.pin s1.pIdx
  let s2 := { s1 with pIdx := s1.pIdx + 1 }
  (if temp &&& (1 <<< CCS) = 0 then MEMSUCC else MEMFAIL, s2)

/-- SetWP: drives the write-protect output high, then reads RContPort back;
succeeds iff the read-back has the bit set. -/
def SetWP (env : Env) (chip : Int) (s : St) : Nat × St :=
  let CWP := GetWP chip
  let s1 := { s with port := s.port ||| (1 <<< CWP) }
  let temp := env.pin s1.pIdx
  let s2 := { s1 with pIdx := s1.pIdx + 1 }
  (if temp &&& (1 <<< CWP) ≠ 0 then MEMSUCC else MEMFAIL, s2)

/-- ClearWP: drives the write-protect output low, then reads RContPort back;
succeeds iff the bit reads clear. -/
def ClearWP (env : Env) (chip : Int) (s : St) : Nat × St :=
  let CWP := GetWP chip
  let s1 := { s with port := s.port &&& (0xFF ^^^ (1 <<< CWP)) }
  let temp := env.pin s1.pIdx
  let s2 := { s1 with pIdx := s1.pIdx + 1 }
  (if temp &&& (1 <<< CWP) = 0 then MEMSUCC else MEMFAIL, s2)

/-- SendCommand: calls ClearCS but discards its result (the source line is a
bare `ClearCS( chip );` with no check), then sends the command byte. -/
def SendCommand (env : Env) (chip : Int) (Command : Nat) (s : St) : Nat × St :=
  let s1 := (ClearCS env chip s).2
  let p := SendByte env Command s1
  if p.1 ≠ 0 then (MEMFAIL, p.2) else (MEMSUCC, p.2)

/-- SendAddress: splits the address into three bytes (bits 23-16, 15-8, 7-0)
and sends them MSB first, aborting on the first transport failure. -/
def SendAddress (env : Env) (chip : Int) (Address : Nat) (s : St) : Nat × St :=
  let Addr_Hi := (Address >>> 16) &&& 0xFF
  let Addr_LoHi := (Address >>> 8) &&& 0xFF
  let Addr_LoLo := Address &&& 0xFF
  let p1 := SendByte env Addr_Hi s
  if p1.1 ≠ 0 then (MEMFAIL, p1.2) else
  let p2 := SendByte env Addr_LoHi p1.2
  if p2.1 ≠ 0 then (MEMFAIL, p2.2) else
  let p3 := SendByte env Addr_LoLo p2.2
  if p3.1 ≠ 0 then (MEMFAIL, p3.2) else (MEMSUCC, p3.2)

/-- SendCommandAndAddress: SendCommand then SendAddress, aborting on failure. -/
def SendCommandAndAddress (env : Env) (chip : Int) (Command : Nat) (Address : Nat)
    (s : St) : Nat × St :=
  let p := SendCommand env chip Command s
  if p.1 ≠ 0 then (MEMFAIL, p.2) else
  let q := SendAddress env chip Address p.2
  if q.1 ≠ 0 then (MEMFAIL, q.2) else (MEMSUCC, q.2)

/-- The read-back loop of ReadData: one ReadByte per remaining count, storing
each byte into the caller's buffer (modelled as the list of bytes stored so
far) and aborting with MEMFAIL on the first transport failure. -/
def readLoop (env : Env) (n : Nat) (acc : List Nat) (s : St) : Nat × List Nat × St :=
  match n with
  | 0 => (MEMSUCC, acc, s)
  | Nat.succ m =>
    let p := ReadByte env s
    if p.1 ≠ 0 then (MEMFAIL, acc, p.2.2)
    else readLoop env m (acc ++ [p.2.1]) p.2.2

/-- ReadData: frames the READ command and the address once, reads NumBytes
bytes into the caller's buffer, then ends the read by setting CS high.
Returns (result, bytes stored into the buffer, state). -/
def ReadData (env : Env) (chip : Int) (Address : Nat) (NumBytes : Nat)
    (s : St) : Nat × List Nat × St :=
  let p := SendCommandAndAddress env chip MREAD Address s
  if p.1 ≠ 0 then (MEMFAIL, [], p.2) else
  let q := readLoop env NumBytes [] p.2
  if q.1 ≠ 0 then (MEMFAIL, q.2.1, q.2.2) else
  let r := SetCS env chip q.2.2
  if r.1 ≠ 0 then (MEMFAIL, q.2.1, r.2) else (MEMSUCC, q.2.1, r.2)

/-- WakeMem: sends the RDID command with the dummy address 0x00A5A5A5, reads
the device ID byte back, sets CS high, then compares the ID against MDEVICE. -/
def WakeMem (env : Env) (chip : Int) (s : St) : Nat × St :=
  let p := SendCommandAndAddress env chip MRDID 0x00A5A5A5 s
  if p.1 ≠ 0 then (MEMFAIL, p.2) else
  let q := ReadByte env p.2
  if q.1 ≠ 0 then (MEMFAIL, q.2.2) else
  let r := SetCS env chip q.2.2
  if r.1 ≠ 0 then (MEMFAIL, r.2) else
  if q.2.1 ≠ MDEVICE then (MEMFAIL, r.2) else (MEMSUCC, r.2)

/-- ReadMemStatus: sends the RDSR command and reads one byte back; the byte is
stored through the status out-parameter only on the success path.  Returns
(result, value of the caller's status variable after the call, state); the
caller's prior value `status0` is returned unchanged on the failure paths.
The source warns that this function leaves CS low at exit. -/
def ReadMemStatus (env : Env) (chip : Int) (status0 : Nat) (s : St) :
    Nat × Nat × St :=
  let p := SendCommand env chip MRDSR s
  if p.1 ≠ 0 then (MEMFAIL, status0, p.2) else
  let q := ReadByte env p.2
  if q.1 ≠ 0 then (MEMFAIL, status0, q.2.2) else
  (MEMSUCC, q.2.1, q.2.2)

/-- WriteMemStatus: de-asserts !WP (SetWP), sends the WRSR command and the
status byte, re-asserts !WP (ClearWP), reads the status back, and fails when
the read-back differs from the requested byte on the bits of mask 0x8C.
`status` is the byte at the caller's status pointer (only read, never
written back). -/
def WriteMemStatus (env : Env) (chip : Int) (status : Nat) (s : St) : Nat × St :=
  let temp := status
  let p := SetWP env chip s
  if p.1 ≠ 0 then (MEMFAIL, p.2) else
  let q := SendCommand env chip MWRSR p.2
  if q.1 ≠ 0 then (MEMFAIL, q.2) else
  let r := SendByte env temp q.2
  if r.1 ≠ 0 then (MEMFAIL, r.2) else
  let u := ClearWP env chip r.2
  if u.1 ≠ 0 then (MEMFAIL, u.2) else
  let v := ReadMemStatus env chip 0 u.2
  if v.1 ≠ 0 then (MEMFAIL, v.2.2) else
  if (temp &&& 0x8C) ≠ (v.2.1 &&& 0x8C) then (MEMFAIL, v.2.2)
  else (MEMSUCC, v.2.2)

/-- InitMem: sets the DDR bits for the selected chip's CS and WP pins; the
switch's default branch returns MEMFAIL.  The trailing ClearWP runs only when
WP_USED is configured (it is MEMFALSE in the shipped source). -/
def InitMem (env : Env) (chip : Int) (s : St) : Nat × St :=
  match (if chip = 0 then some (CS0, WP0)
         else if chip = 1 then some (CS1, WP1)
         else if chip = 2 then some (CS2, WP2)
         else if chip = 3 then some (CS3, WP3)
         else none) with
  | none => (MEMFAIL, s)
  | some cw =>
    let s1 := { s with ddr := (s.ddr ||| (1 <<< cw.1)) ||| (1 <<< cw.2) }
    if WP_USED ≠ 0 then
      let p := ClearWP env chip s1
      if p.1 ≠ 0 then (MEMFAIL, p.2) else (MEMSUCC, p.2)
    else (MEMSUCC, s1)

/-- Reinterpretation of a nonnegative value as an AVR 16-bit signed int, as
performed by a cast to `int` under avr-gcc: reduce modulo 2^16 and read
values at and above 2^15 as negative. -/
def toInt16 (x : Nat) : Int :=
  let r := x % 65536
  if r < 32768 then (r : Int) else (r : Int) - 65536

/-- GetPage: computes `temp = (int)(Address / PAGE_SIZE)` - the cast narrows
the `long` quotient to the AVR's 16-bit signed int, wrapping - then executes
`page = &temp; page--;` - which retargets and decrements the function-local
pointer variable, so the caller's `*page` is never written - and returns
MEMFAIL iff temp exceeds 511 (a signed comparison on the wrapped value).
`page` here is the value behind the caller's out-pointer; the second
component of the result is that value after the call (unchanged on every
path). -/
def GetPage (Address : Nat) (page : Nat) : Nat × Nat :=
  let temp : Int := toInt16 (Address / PAGE_SIZE)
  (if temp > 511 then MEMFAIL else MEMSUCC, page)

/-- Modelled from the spec: the highest-unprotected-address table of spec
section 6, built from the BP00..BP11 constants of the source header (the
source file defining the protection check is not in the repository; only its
declaration `CheckProtect` is). -/
def unprotectedBound (L : Nat) : Nat :=
  if L = 0 then BP00 else if L = 1 then BP01 else if L = 2 then BP10 else BP11

/-- Modelled from the spec: `isProtected(blockProtectionLevel, address)` of
spec section 4.4 - a target address above the level's highest unprotected
address is protected.  The body of the source's CheckProtect is not in the
repository. -/
def isProtected (L : Nat) (a : Nat) : Bool :=
  a > unprotectedBound L

/-- Modelled from the spec: WriteEnable (declared in the header, body not in
the repository); spec section 4.5 - a single-opcode command arming the write
latch, framed like every command (select, opcode, deselect). -/
def WriteEnableM (env : Env) (chip : Int) (s : St) : Nat × St :=
  let p := SendCommand env chip MWREN s
  if p.1 ≠ 0 then (MEMFAIL, p.2) else
  let q := SetCS env chip p.2
  if q.1 ≠ 0 then (MEMFAIL, q.2) else (MEMSUCC, q.2)

/-- Modelled from the spec: ErasePage (declared in the header, body not in
the repository); spec sections 4.4, 4.5 and 7 - validate protection for the
target before write-enable is asserted, refusing a protected target before
any bus activity; otherwise WriteEnable, frame the page-erase opcode with the
address, deselect.  The unbounded busy-poll to completion of spec 4.5 is
outside the claims settled here and is omitted. -/
def ErasePageM (env : Env) (chip : Int) (L : Nat) (Address : Nat) (s : St) :
    Nat × St :=
  if isProtected L Address then (MEMFAIL, s) else
  let e := WriteEnableM env chip s
  if e.1 ≠ 0 then (MEMFAIL, e.2) else
  let p := SendCommandAndAddress env chip MPE Address e.2
  if p.1 ≠ 0 then (MEMFAIL, p.2) else
  let q := SetCS env chip p.2
  if q.1 ≠ 0 then (MEMFAIL, q.2) else (MEMSUCC, q.2)

/-! Concrete environments and states used by the closed evidence theorems. -/

/-- Environment in which every transport step succeeds, every byte read back
is the manufacturer ID 0x29, and every pin read-back shows all lines high. -/
def allGoodEnv : Env := ⟨fun _ => true, fun _ => (true, 0x29), fun _ => 0xFF⟩

/-- Environment whose SPI transport fails on every byte. -/
def busDownEnv : Env := ⟨fun _ => false, fun _ => (false, 0), fun _ => 0⟩

/-- Environment whose pin read-back always shows every line high (so a
chip-select line can never be confirmed low), with a healthy transport. -/
def pinStuckHighEnv : Env := ⟨fun _ => true, fun _ => (true, 0x29), fun _ => 0xFF⟩

/-- Environment for a WriteMemStatus round trip on chip 0: healthy transport,
status reads back 0x8C, and the pin read-back confirms SetWP (step 0) and
ClearWP (step 2) while showing the lines high otherwise. -/
def wmsEnv : Env := ⟨fun _ => true, fun _ => (true, 0x8C), fun k => if k = 2 then 0 else 0xFF⟩

/-- Initial state with all outputs low and empty traces. -/
def st0 : St := ⟨0, 0, 0, 0, 0, []⟩

/-- Idle state with the four chip-select outputs high (chips deselected). -/
def stIdle : St := ⟨0x0F, 0, 0, 0, 0, []⟩

/-! Predicates naming the external steps of an operation, used to state
success characterizations.  The indices follow the oracle cursors at entry. -/

/-- Every external step of ReadData succeeds: the four framing bytes (command
and 3-byte address), the n data-byte reads, and the ending SetCS read-back
confirmation.  (The ClearCS read-back inside SendCommand is not listed: the
source discards its result.) -/
def rdStepsOK (env : Env) (chip : Int) (n : Nat) (s : St) : Prop :=
  env.spiW s.wIdx = true ∧ env.spiW (s.wIdx + 1) = true ∧
  env.spiW (s.wIdx + 2) = true ∧ env.spiW (s.wIdx + 3) = true ∧
  (∀ k, k < n → (env.spiR (s.rIdx + k)).1 = true) ∧
  env.pin (s.pIdx + 1) &&& (1 <<< GetCS chip) ≠ 0

/-- Every external step of WakeMem succeeds: the four framing bytes, the ID
byte read, and the ending SetCS read-back confirmation. -/
def wakeStepsOK (env : Env) (chip : Int) (s : St) : Prop :=
  env.spiW s.wIdx = true ∧ env.spiW (s.wIdx + 1) = true ∧
  env.spiW (s.wIdx + 2) = true ∧ env.spiW (s.wIdx + 3) = true ∧
  (env.spiR s.rIdx).1 = true ∧
  env.pin (s.pIdx + 1) &&& (1 <<< GetCS chip) ≠ 0

/-- Every external step of WriteMemStatus succeeds: SetWP confirmed high, the
WRSR opcode and payload bytes, ClearWP confirmed low, the RDSR opcode byte
and the status byte read.  (The two ClearCS read-backs inside SendCommand are
not listed: the source discards their results.) -/
def wmsStepsOK (env : Env) (chip : Int) (s : St) : Prop :=
  env.pin s.pIdx &&& (1 <<< GetWP chip) ≠ 0 ∧
  env.spiW s.wIdx = true ∧
  env.spiW (s.wIdx + 1) = true ∧
  env.pin (s.pIdx + 2) &&& (1 <<< GetWP chip) = 0 ∧
  env.spiW (s.wIdx + 2) = true ∧
  (env.spiR s.rIdx).1 = true

/-! Generic helper lemmas. -/

theorem getCS_cases (chip : Int) :
    GetCS chip = 0 ∨ GetCS chip = 1 ∨ GetCS chip = 2 ∨ GetCS chip = 3 := by
  unfold GetCS CS0 CS1 CS2 CS3
  split
  · exact Or.inl rfl
  · split
    · exact Or.inr (Or.inl rfl)
    · split
      · exact Or.inr (Or.inr (Or.inl rfl))
      · split
        · exact Or.inr (Or.inr (Or.inr rfl))
        · exact Or.inl rfl

theorem getCS_lt_8 (chip : Int) : GetCS chip < 8 := by
  rcases getCS_cases chip with h | h | h | h <;> omega

theorem getWP_cases (chip : Int) :
    GetWP chip = 4 ∨ GetWP chip = 5 ∨ GetWP chip = 6 ∨ GetWP chip = 7 := by
  unfold GetWP WP0 WP1 WP2 WP3
  split
  · exact Or.inl rfl
  · split
    · exact Or.inr (Or.inl rfl)
    · split
      · exact Or.inr (Or.inr (Or.inl rfl))
      · split
        · exact Or.inr (Or.inr (Or.inr rfl))
        · exact Or.inl rfl

theorem getWP_lt_8 (chip : Int) : GetWP chip < 8 := by
  rcases getWP_cases chip with h | h | h | h <;> omega

/-- Clearing a bit of the 8-bit latch really leaves that bit clear. -/
theorem land_mask_bit_zero (x c : Nat) (hc : c < 8) :
    (x &&& (0xFF ^^^ (1 <<< c))) &&& (1 <<< c) = 0 := by
  rw [Nat.land_assoc]
  have h : (0xFF ^^^ (1 <<< c)) &&& (1 <<< c) = 0 := by interval_cases c <;> rfl
  rw [h]
  exact Nat.and_zero x

/-- Setting a bit of the latch really leaves that bit set. -/
theorem lor_bit_land_ne_zero (x c : Nat) : (x ||| (1 <<< c)) &&& (1 <<< c) ≠ 0 := by
  rw [Nat.one_shiftLeft, Nat.and_two_pow]
  simp [Nat.testBit_lor, Nat.testBit_two_pow_self]

/-- The result code of a verified pin toggle is nonzero exactly when the
verification condition failed. -/
theorem ite_code_ne_zero (c : Prop) [Decidable c] :
    ((if c then MEMSUCC else MEMFAIL) ≠ 0) = ¬c := by
  by_cases h : c <;> simp [h, MEMSUCC, MEMFAIL]

/-! Invariants of the read-back loop. -/

theorem readLoop_frame (env : Env) (n : Nat) : ∀ (acc : List Nat) (s : St),
    (readLoop env n acc s).2.2.port = s.port ∧
    (readLoop env n acc s).2.2.ddr = s.ddr ∧
    (readLoop env n acc s).2.2.wIdx = s.wIdx ∧
    (readLoop env n acc s).2.2.pIdx = s.pIdx ∧
    (readLoop env n acc s).2.2.sent = s.sent := by
  induction n with
  | zero => intro acc s; exact ⟨rfl, rfl, rfl, rfl, rfl⟩
  | succ m ih =>
    intro acc s
    unfold readLoop
    by_cases h : (env.spiR s.rIdx).1 <;>
      simp [ReadByte, h, MEMSUCC, MEMFAIL, ih]

theorem readLoop_succ_iff (env : Env) (n : Nat) : ∀ (acc : List Nat) (s : St),
    (readLoop env n acc s).1 = MEMSUCC ↔
      ∀ k, k < n → (env.spiR (s.rIdx + k)).1 = true := by
  induction n with
  | zero => intro acc s; simp [readLoop]
  | succ m ih =>
    intro acc s
    unfold readLoop
    by_cases h : (env.spiR s.rIdx).1
    · simp only [ReadByte, h, if_true, MEMSUCC, MEMFAIL]
      simp only [show ¬((0 : Nat) ≠ 0) from fun hc => hc rfl, if_false, ite_false]
      simp only [MEMSUCC] at ih
      rw [ih]
      constructor
      · intro hm k hk
        cases k with
        | zero => simpa using h
        | succ j =>
          have := hm j (by omega)
          simpa [Nat.add_assoc, Nat.add_comm 1 j] using this
      · intro hm k hk
        have := hm (k + 1) (by omega)
        simpa [Nat.add_assoc, Nat.add_comm 1 k] using this
    · simp only [ReadByte, h, if_false, MEMSUCC, MEMFAIL, ite_false]
      constructor
      · intro hc; exact absurd hc (by norm_num)
      · intro hr
        have := hr 0 (by omega)
        simp [h] at this

theorem readLoop_rIdx_of_succ (env : Env) (n : Nat) : ∀ (acc : List Nat) (s : St),
    (readLoop env n acc s).1 = MEMSUCC →
    (readLoop env n acc s).2.2.rIdx = s.rIdx + n := by
  induction n with
  | zero => intro acc s _; rfl
  | succ m ih =>
    intro acc s hsucc
    unfold readLoop at hsucc ⊢
    by_cases h : (env.spiR s.rIdx).1
    · simp only [ReadByte, h, if_true, MEMSUCC, MEMFAIL] at hsucc ⊢
      simp only [show ¬((0 : Nat) ≠ 0) from fun hc => hc rfl, if_false, ite_false] at hsucc ⊢
      have := ih (acc ++ [(env.spiR s.rIdx).2]) { s with rIdx := s.rIdx + 1 } hsucc
      simpa [Nat.add_assoc, Nat.add_comm 1 m] using this
    · simp [ReadByte, h, MEMSUCC, MEMFAIL] at hsucc

/-! Behavior of the command-and-address framing. -/

theorem SCA_succ_iff (env : Env) (chip : Int) (cmd a : Nat) (s : St) :
    (SendCommandAndAddress env chip cmd a s).1 = MEMSUCC ↔
      (env.spiW s.wIdx = true ∧ env.spiW (s.wIdx + 1) = true ∧
       env.spiW (s.wIdx + 2) = true ∧ env.spiW (s.wIdx + 3) = true) := by
  unfold SendCommandAndAddress SendCommand SendAddress SendByte ClearCS
  by_cases h0 : env.spiW s.wIdx <;>
    by_cases h1 : env.spiW (s.wIdx + 1) <;>
      by_cases h2 : env.spiW (s.wIdx + 2) <;>
        by_cases h3 : env.spiW (s.wIdx + 3) <;>
          simp [h0, h1, h2, h3, MEMSUCC, MEMFAIL]

theorem SCA_frame (env : Env) (chip : Int) (cmd a : Nat) (s : St) :
    (SendCommandAndAddress env chip cmd a s).2.port =
      s.port &&& (0xFF ^^^ (1 <<< GetCS chip)) ∧
    (SendCommandAndAddress env chip cmd a s).2.ddr = s.ddr ∧
    (SendCommandAndAddress env chip cmd a s).2.pIdx = s.pIdx + 1 ∧
    (SendCommandAndAddress env chip cmd a s).2.rIdx = s.rIdx := by
  unfold SendCommandAndAddress SendCommand SendAddress SendByte ClearCS
  by_cases h0 : env.spiW s.wIdx <;>
    by_cases h1 : env.spiW (s.wIdx + 1) <;>
      by_cases h2 : env.spiW (s.wIdx + 2) <;>
        by_cases h3 : env.spiW (s.wIdx + 3) <;>
          simp [h0, h1, h2, h3, MEMSUCC, MEMFAIL]

theorem SCA_sent_of_succ (env : Env) (chip : Int) (cmd a : Nat) (s : St) :
    (SendCommandAndAddress env chip cmd a s).1 = MEMSUCC →
    (SendCommandAndAddress env chip cmd a s).2.sent =
      s.sent ++ [cmd, (a >>> 16) &&& 0xFF, (a >>> 8) &&& 0xFF, a &&& 0xFF] := by
  unfold SendCommandAndAddress SendCommand SendAddress SendByte ClearCS
  by_cases h0 : env.spiW s.wIdx <;>
    by_cases h1 : env.spiW (s.wIdx + 1) <;>
      by_cases h2 : env.spiW (s.wIdx + 2) <;>
        by_cases h3 : env.spiW (s.wIdx + 3) <;>
          simp [h0, h1, h2, h3, MEMSUCC, MEMFAIL]

/-! Claim theorems. -/

/-- C8: ReadData sends the read opcode 0x03 and the address decomposed into
exactly 3 bytes MSB-first (bits 23-16, 15-8, 7-0) exactly once, then performs
exactly n single-byte reads with no further framing, then deselects (the
chip-select output ends high), and it returns success exactly when every
transport step and the deselect confirmation succeed.  The byte trace of a
successful call is that single 4-byte frame and nothing else, so no
write-enable opcode and no protection check occur. -/
theorem ReadData_frames_once_then_reads (env : Env) (chip : Int) (a n : Nat) (s : St) :
    ((ReadData env chip a n s).1 = MEMSUCC ↔ rdStepsOK env chip n s) ∧
    ((ReadData env chip a n s).1 = MEMSUCC →
      (ReadData env chip a n s).2.2.sent =
        s.sent ++ [MREAD, (a >>> 16) &&& 0xFF, (a >>> 8) &&& 0xFF, a &&& 0xFF] ∧
      (ReadData env chip a n s).2.2.rIdx = s.rIdx + n ∧
      (ReadData env chip a n s).2.2.port &&& (1 <<< GetCS chip) ≠ 0) := by
  have hSCA := SCA_frame env chip MREAD a s
  have hQframe := readLoop_frame env n []
    ((SendCommandAndAddress env chip MREAD a s).2)
  simp only [ReadData, SetCS, ite_code_ne_zero]
  split_ifs with h1 h2 h3
  · -- command/address framing failed
    have hne : ¬ rdStepsOK env chip n s := by
      intro hOK
      exact h1 ((SCA_succ_iff env chip MREAD a s).2
        ⟨hOK.1, hOK.2.1, hOK.2.2.1, hOK.2.2.2.1⟩)
    simp [MEMFAIL, MEMSUCC, hne]
  · -- a data-byte read failed
    have hne : ¬ rdStepsOK env chip n s := by
      intro hOK
      apply h2
      have hr : ∀ k, k < n →
          (env.spiR ((SendCommandAndAddress env chip MREAD a s).2.rIdx + k)).1 = true := by
        rw [hSCA.2.2.2]
        exact hOK.2.2.2.2.1
      exact (readLoop_succ_iff env n [] _).2 hr
    simp [MEMFAIL, MEMSUCC, hne]
  · -- every step succeeded
    have h1' : (SendCommandAndAddress env chip MREAD a s).1 = MEMSUCC := not_not.mp h1
    have h2' : (readLoop env n [] ((SendCommandAndAddress env chip MREAD a s).2)).1 = MEMSUCC :=
      not_not.mp h2
    have hpin : env.pin (s.pIdx + 1) &&& (1 <<< GetCS chip) ≠ 0 := by
      have h3' := h3
      rwa [hQframe.2.2.2.1, hSCA.2.2.1] at h3'
    have hOK : rdStepsOK env chip n s := by
      have hw := (SCA_succ_iff env chip MREAD a s).1 h1'
      have hr := (readLoop_succ_iff env n []
        ((SendCommandAndAddress env chip MREAD a s).2)).1 h2'
      rw [hSCA.2.2.2] at hr
      exact ⟨hw.1, hw.2.1, hw.2.2.1, hw.2.2.2, hr, hpin⟩
    have hsent : (readLoop env n [] ((SendCommandAndAddress env chip MREAD a s).2)).2.2.sent =
        s.sent ++ [MREAD, (a >>> 16) &&& 0xFF, (a >>> 8) &&& 0xFF, a &&& 0xFF] := by
      rw [hQframe.2.2.2.2]
      exact SCA_sent_of_succ env chip MREAD a s h1'
    have hrIdx : (readLoop env n [] ((SendCommandAndAddress env chip MREAD a s).2)).2.2.rIdx =
        s.rIdx + n := by
      rw [readLoop_rIdx_of_succ env n [] _ h2', hSCA.2.2.2]
    simp [MEMSUCC, hOK, hsent, hrIdx, lor_bit_land_ne_zero]
  · -- the deselect read-back was not confirmed
    have hne : ¬ rdStepsOK env chip n s := by
      intro hOK
      apply h3
      have hp := hOK.2.2.2.2.2
      rw [hQframe.2.2.2.1, hSCA.2.2.1]
      exact hp
    simp [MEMFAIL, MEMSUCC, hne]

/-- C8 witness: on chip 0, address 0x123456, 2 bytes, in the environment where
every external step succeeds, ReadData succeeds, its byte trace is the single
4-byte frame, it consumed exactly 2 reads, and the chip ends deselected. -/
theorem ReadData_frames_once_then_reads_witness :
    (ReadData allGoodEnv 0 0x123456 2 st0).1 = MEMSUCC ∧
    ((ReadData allGoodEnv 0 0x123456 2 st0).2.2.sent =
       st0.sent ++ [MREAD, (0x123456 >>> 16) &&& 0xFF, (0x123456 >>> 8) &&& 0xFF,
         0x123456 &&& 0xFF] ∧
     (ReadData allGoodEnv 0 0x123456 2 st0).2.2.rIdx = st0.rIdx + 2 ∧
     (ReadData allGoodEnv 0 0x123456 2 st0).2.2.port &&& (1 <<< GetCS 0) ≠ 0) :=
  ⟨by decide, (ReadData_frames_once_then_reads allGoodEnv 0 0x123456 2 st0).2 (by decide)⟩

/-- C7: WakeMem sends the release-from-deep-power-down opcode 0xAB followed by
the 24-bit dummy address (three 0xA5 bytes), reads back one byte, deselects
the chip, and succeeds exactly when every bus step and the deselect
confirmation succeed and the byte equals the manufacturer signature 0x29; in
particular it fails whenever the returned byte differs from 0x29, even with a
fault-free bus. -/
theorem WakeMem_checks_signature (env : Env) (chip : Int) (s : St) :
    ((WakeMem env chip s).1 = MEMSUCC ↔
      wakeStepsOK env chip s ∧ (env.spiR s.rIdx).2 = MDEVICE) ∧
    ((WakeMem env chip s).1 = MEMSUCC →
      (WakeMem env chip s).2.sent = s.sent ++ [MRDID, 0xA5, 0xA5, 0xA5] ∧
      (WakeMem env chip s).2.rIdx = s.rIdx + 1 ∧
      (WakeMem env chip s).2.port &&& (1 <<< GetCS chip) ≠ 0) := by
  simp only [WakeMem, SendCommandAndAddress, SendCommand, SendAddress, SendByte,
    ClearCS, SetCS, ReadByte]
  by_cases h0 : env.spiW s.wIdx <;>
  by_cases h1 : env.spiW (s.wIdx + 1) <;>
  by_cases h2 : env.spiW (s.wIdx + 2) <;>
  by_cases h3 : env.spiW (s.wIdx + 3) <;>
  by_cases h4 : (env.spiR s.rIdx).1 <;>
  by_cases h5 : env.pin (s.pIdx + 1) &&& (1 <<< GetCS chip) = 0 <;>
  by_cases h6 : (env.spiR s.rIdx).2 = MDEVICE <;>
  simp [wakeStepsOK, h0, h1, h2, h3, h4, h5, h6, MEMSUCC, MEMFAIL,
    lor_bit_land_ne_zero] <;>
  decide

/-- C7 witness: on chip 0 in the environment where every external step
succeeds and the byte read back is 0x29, WakeMem succeeds and its byte trace
is the opcode plus the three dummy-address bytes. -/
theorem WakeMem_checks_signature_witness :
    (WakeMem allGoodEnv 0 st0).1 = MEMSUCC ∧
    ((WakeMem allGoodEnv 0 st0).2.sent = st0.sent ++ [MRDID, 0xA5, 0xA5, 0xA5] ∧
     (WakeMem allGoodEnv 0 st0).2.rIdx = st0.rIdx + 1 ∧
     (WakeMem allGoodEnv 0 st0).2.port &&& (1 <<< GetCS 0) ≠ 0) :=
  ⟨by decide, (WakeMem_checks_signature allGoodEnv 0 st0).2 (by decide)⟩

/-- C5: WriteMemStatus de-asserts the write-protect pin (SetWP), sends the
write-status opcode 0x01 and then the payload byte, re-asserts the
write-protect pin (ClearWP), reads the status register back (sending the
read-status opcode 0x05), and succeeds exactly when every verified pin toggle
and bus step succeeds and the read-back agrees with the payload on the bits
of mask 0x8C; equivalently it fails exactly when some step fails or those
masked bits differ. -/
theorem WriteMemStatus_verifies_masked_bits (env : Env) (chip : Int) (v : Nat) (s : St) :
    ((WriteMemStatus env chip v s).1 = MEMSUCC ↔
      wmsStepsOK env chip s ∧ (v &&& 0x8C) = ((env.spiR s.rIdx).2 &&& 0x8C)) ∧
    ((WriteMemStatus env chip v s).1 = MEMSUCC →
      (WriteMemStatus env chip v s).2.sent = s.sent ++ [MWRSR, v, MRDSR]) := by
  simp only [WriteMemStatus, ReadMemStatus, SendCommand, SendByte, ClearCS,
    SetWP, ClearWP, ReadByte]
  by_cases h0 : env.pin s.pIdx &&& (1 <<< GetWP chip) = 0 <;>
  by_cases h1 : env.spiW s.wIdx <;>
  by_cases h2 : env.spiW (s.wIdx + 1) <;>
  by_cases h3 : env.pin (s.pIdx + 2) &&& (1 <<< GetWP chip) = 0 <;>
  by_cases h4 : env.spiW (s.wIdx + 2) <;>
  by_cases h5 : (env.spiR s.rIdx).1 <;>
  by_cases h6 : v &&& 0x8C = (env.spiR s.rIdx).2 &&& 0x8C <;>
  simp [wmsStepsOK, h0, h1, h2, h3, h4, h5, h6, MEMSUCC, MEMFAIL]

/-- C5 witness: on chip 0 with payload 0x8C, in an environment with a healthy
transport, a status read-back of 0x8C, and pin read-backs confirming SetWP
and ClearWP, WriteMemStatus succeeds and its byte trace is the write-status
opcode, the payload and the read-status opcode. -/
theorem WriteMemStatus_verifies_masked_bits_witness :
    (WriteMemStatus wmsEnv 0 0x8C st0).1 = MEMSUCC ∧
    (WriteMemStatus wmsEnv 0 0x8C st0).2.sent = st0.sent ++ [MWRSR, 0x8C, MRDSR] :=
  ⟨by decide, (WriteMemStatus_verifies_masked_bits wmsEnv 0 0x8C st0).2 (by decide)⟩

/-- C6: ReadMemStatus sends exactly the read-status opcode 0x05 and consumes
exactly one byte read on success, and it never raises chip-select: on every
path its only effect on the output latch is to drive the selected chip-select
bit low, so on success it returns with the chip still selected. -/
theorem ReadMemStatus_leaves_chip_selected (env : Env) (chip : Int) (status0 : Nat) (s : St) :
    (ReadMemStatus env chip status0 s).2.2.port =
      s.port &&& (0xFF ^^^ (1 <<< GetCS chip)) ∧
    ((ReadMemStatus env chip status0 s).1 = MEMSUCC →
      (ReadMemStatus env chip status0 s).2.2.sent = s.sent ++ [MRDSR] ∧
      (ReadMemStatus env chip status0 s).2.2.rIdx = s.rIdx + 1 ∧
      (ReadMemStatus env chip status0 s).2.2.port &&& (1 <<< GetCS chip) = 0) := by
  simp only [ReadMemStatus, SendCommand, SendByte, ClearCS, ReadByte]
  by_cases h0 : env.spiW s.wIdx <;>
  by_cases h1 : (env.spiR s.rIdx).1 <;>
  simp [h0, h1, MEMSUCC, MEMFAIL,
    land_mask_bit_zero s.port (GetCS chip) (getCS_lt_8 chip)]

/-- C6 witness: on chip 0 with the chip-select outputs initially high, a
successful ReadMemStatus sent exactly the opcode 0x05, consumed one read, and
returned with the chip-select output low (chip still selected). -/
theorem ReadMemStatus_leaves_chip_selected_witness :
    (ReadMemStatus allGoodEnv 0 99 stIdle).2.2.port =
      stIdle.port &&& (0xFF ^^^ (1 <<< GetCS 0)) ∧
    ((ReadMemStatus allGoodEnv 0 99 stIdle).1 = MEMSUCC ∧
     (ReadMemStatus allGoodEnv 0 99 stIdle).2.2.sent = stIdle.sent ++ [MRDSR] ∧
     (ReadMemStatus allGoodEnv 0 99 stIdle).2.2.rIdx = stIdle.rIdx + 1 ∧
     (ReadMemStatus allGoodEnv 0 99 stIdle).2.2.port &&& (1 <<< GetCS 0) = 0) :=
  ⟨(ReadMemStatus_leaves_chip_selected allGoodEnv 0 99 stIdle).1,
   by
    have h := (ReadMemStatus_leaves_chip_selected allGoodEnv 0 99 stIdle).2 (by decide)
    exact ⟨by decide, h.1, h.2.1, h.2.2⟩⟩

/-- C10: whenever ReadMemStatus returns failure (the command byte or the byte
read failed), the caller's status out-parameter keeps its prior value; only
the success path writes through the status pointer. -/
theorem ReadMemStatus_failure_preserves_status (env : Env) (chip : Int) (status0 : Nat) (s : St) :
    (ReadMemStatus env chip status0 s).1 = MEMFAIL →
    (ReadMemStatus env chip status0 s).2.1 = status0 := by
  simp only [ReadMemStatus, SendCommand, SendByte, ClearCS, ReadByte]
  by_cases h0 : env.spiW s.wIdx <;>
  by_cases h1 : (env.spiR s.rIdx).1 <;>
  simp [h0, h1, MEMSUCC, MEMFAIL]

/-- C10 witness: with the transport down, ReadMemStatus on chip 0 fails and
the caller's status variable keeps its prior value 99. -/
theorem ReadMemStatus_failure_preserves_status_witness :
    (ReadMemStatus busDownEnv 0 99 st0).1 = MEMFAIL ∧
    (ReadMemStatus busDownEnv 0 99 st0).2.1 = 99 :=
  ⟨by decide, ReadMemStatus_failure_preserves_status busDownEnv 0 99 st0 (by decide)⟩

/-- C1 evidence: GetPage never stores through the caller's page out-parameter
- the source executes `page = &temp; page--;`, reassigning the function-local
pointer instead of writing `*page` - so the out-parameter is unchanged on
every path.  Concretely, at address 256 the page is 1, yet the call succeeds
leaving the caller's variable at its prior value 7.  The success/failure
boundary follows the claim only below 2^23: the exact characterization is
that the call succeeds iff the 16-bit-wrapped quotient reads at most 511 as a
signed int, so at address 0x800000 the wrapped quotient is -32768 and the
call succeeds although the address is far beyond the array. -/
theorem GetPage_out_param_never_written :
    (∀ a p, (GetPage a p).2 = p) ∧
    GetPage 256 7 = (MEMSUCC, 7) ∧ 256 / PAGE_SIZE = 1 ∧
    (∀ a p, ((GetPage a p).1 = MEMSUCC ↔
      (a / 256) % 65536 < 512 ∨ 32768 ≤ (a / 256) % 65536)) ∧
    GetPage 0x1FFFF 7 = (MEMSUCC, 7) ∧
    (GetPage 0x20000 7).1 = MEMFAIL ∧
    GetPage 0x800000 7 = (MEMSUCC, 7) := by
  refine ⟨fun a p => rfl, by decide, by decide, fun a p => ?_,
    by decide, by decide, by decide⟩
  simp only [GetPage, toInt16, PAGE_SIZE]
  split_ifs with h1 h2 h3 <;> simp [MEMSUCC, MEMFAIL] <;> omega

/-- C2 counterexample: chip index 4 is outside [0,3], yet GetCS and GetWP
resolve it to chip 0's control lines, and ReadData with chip 4 proceeds to
drive the bus (a full frame is sent) and returns success instead of failing
before touching hardware. -/
theorem GetCS_out_of_range_uses_chip0_line :
    GetCS 4 = GetCS 0 ∧ GetWP 4 = GetWP 0 ∧
    (ReadData allGoodEnv 4 0 1 st0).1 = MEMSUCC ∧
    (ReadData allGoodEnv 4 0 1 st0).2.2.sent = [MREAD, 0, 0, 0] := by
  exact ⟨rfl, rfl, by decide, by decide⟩

/-- C2 (amended): a chip index outside [0,3] is not rejected by the bus
operations: GetCS and GetWP map it to chip 0's chip-select and write-protect
lines (the switch default), so public bus operations proceed on chip 0's
lines; only InitMem fails fast on an out-of-range chip index, leaving the
state untouched. -/
theorem out_of_range_chip_resolves_to_chip0 (chip : Int) (h : chip < 0 ∨ 3 < chip) :
    GetCS chip = CS0 ∧ GetWP chip = WP0 ∧
    ∀ env s, InitMem env chip s = (MEMFAIL, s) := by
  have h0 : chip ≠ 0 := by omega
  have h1 : chip ≠ 1 := by omega
  have h2 : chip ≠ 2 := by omega
  have h3 : chip ≠ 3 := by omega
  refine ⟨?_, ?_, fun env s => ?_⟩ <;>
    simp [GetCS, GetWP, InitMem, h0, h1, h2, h3]

/-- C2 witness: instantiating the amended claim at chip index 4. -/
theorem out_of_range_chip_resolves_to_chip0_witness :
    ((4 : Int) < 0 ∨ 3 < (4 : Int)) ∧
    (GetCS 4 = CS0 ∧ GetWP 4 = WP0 ∧
     ∀ env s, InitMem env 4 s = (MEMFAIL, s)) :=
  ⟨by decide, out_of_range_chip_resolves_to_chip0 4 (by decide)⟩

/-- C3 counterexample: starting from the idle state with every chip-select
output high, a transport fault on the very first byte makes ReadData return
failure with chip 0's chip-select output driven low: the failing operation
returns with the chip selected, not with chip-select forced high. -/
theorem ReadData_fault_returns_with_chip_selected :
    stIdle.port &&& (1 <<< GetCS 0) ≠ 0 ∧
    (ReadData busDownEnv 0 0 1 stIdle).1 = MEMFAIL ∧
    (ReadData busDownEnv 0 0 1 stIdle).2.2.port &&& (1 <<< GetCS 0) = 0 := by
  exact ⟨by decide, by decide, by decide⟩

/-- C3 (amended): a failing operation is not always left deselected: whenever
ReadData or WakeMem returns failure, either the chip-select output is still
low (every transport fault aborts with the chip selected), or the final
deselect step was reached and its read-back showed the line low (deselect
unconfirmed), or - for WakeMem only - the deselect succeeded and the
signature byte read differs from 0x29. -/
theorem failing_op_leaves_chip_selected_unless_deselect_reached
    (env : Env) (chip : Int) (a n : Nat) (s : St) :
    ((ReadData env chip a n s).1 = MEMFAIL →
      (ReadData env chip a n s).2.2.port &&& (1 <<< GetCS chip) = 0 ∨
      env.pin ((ReadData env chip a n s).2.2.pIdx - 1) &&& (1 <<< GetCS chip) = 0) ∧
    ((WakeMem env chip s).1 = MEMFAIL →
      (WakeMem env chip s).2.port &&& (1 <<< GetCS chip) = 0 ∨
      env.pin ((WakeMem env chip s).2.pIdx - 1) &&& (1 <<< GetCS chip) = 0 ∨
      (env.spiR ((WakeMem env chip s).2.rIdx - 1)).2 ≠ MDEVICE) := by
  constructor
  · -- ReadData
    have hSCA := SCA_frame env chip MREAD a s
    have hQframe := readLoop_frame env n []
      ((SendCommandAndAddress env chip MREAD a s).2)
    simp only [ReadData, SetCS, ite_code_ne_zero]
    split_ifs with h1 h2 h3
    · intro _
      left
      simp only [hSCA.1]
      exact land_mask_bit_zero s.port (GetCS chip) (getCS_lt_8 chip)
    · intro _
      left
      simp only [hQframe.1, hSCA.1]
      exact land_mask_bit_zero s.port (GetCS chip) (getCS_lt_8 chip)
    · intro hc
      exact absurd hc (by norm_num [MEMSUCC, MEMFAIL])
    · intro _
      right
      simp only [Nat.add_sub_cancel]
      exact not_not.mp h3
  · -- WakeMem
    simp only [WakeMem, SendCommandAndAddress, SendCommand, SendAddress, SendByte,
      ClearCS, SetCS, ReadByte]
    by_cases h0 : env.spiW s.wIdx <;>
    by_cases h1 : env.spiW (s.wIdx + 1) <;>
    by_cases h2 : env.spiW (s.wIdx + 2) <;>
    by_cases h3 : env.spiW (s.wIdx + 3) <;>
    by_cases h4 : (env.spiR s.rIdx).1 <;>
    by_cases h5 : env.pin (s.pIdx + 1) &&& (1 <<< GetCS chip) = 0 <;>
    by_cases h6 : (env.spiR s.rIdx).2 = MDEVICE <;>
    simp [h0, h1, h2, h3, h4, h5, h6, MEMSUCC, MEMFAIL,
      land_mask_bit_zero s.port (GetCS chip) (getCS_lt_8 chip)]

/-- C3 witness: instantiating the amended claim on a transport fault during
ReadData from the idle state; the left disjunct (chip still selected) holds. -/
theorem failing_op_leaves_chip_selected_unless_deselect_reached_witness :
    (ReadData busDownEnv 0 5 1 stIdle).1 = MEMFAIL ∧
    ((ReadData busDownEnv 0 5 1 stIdle).2.2.port &&& (1 <<< GetCS 0) = 0 ∨
     busDownEnv.pin ((ReadData busDownEnv 0 5 1 stIdle).2.2.pIdx - 1) &&&
       (1 <<< GetCS 0) = 0) :=
  ⟨by decide,
   (failing_op_leaves_chip_selected_unless_deselect_reached busDownEnv 0 5 1 stIdle).1
     (by decide)⟩

/-- C4 evidence: the pin-toggle helpers do verify by read-back - ClearCS
itself returns MEMFAIL when the chip-select bit does not read back low - but
SendCommand discards ClearCS's result (the source line is a bare
`ClearCS( chip );`), so in an environment whose pin read-back never shows the
chip-select line low, SendCommand and a whole ReadData still return success:
the enclosing operation does not fail although the select was never
confirmed. -/
theorem SendCommand_discards_ClearCS_failure :
    (ClearCS pinStuckHighEnv 0 st0).1 = MEMFAIL ∧
    (SendCommand pinStuckHighEnv 0 MREAD st0).1 = MEMSUCC ∧
    (ReadData pinStuckHighEnv 0 0 1 st0).1 = MEMSUCC := by
  exact ⟨by decide, by decide, by decide⟩

/-- C9: for every block-protection level L in {0,1,2,3}, the protection check
classifies an address as protected exactly when it exceeds the level's
highest unprotected address, with the bound table 0x01FFFF, 0x017FFF,
0x00FFFF, 0x000000 (the BP00..BP11 constants of the source header); and a
mutating operation (modelled by ErasePageM, from the spec) refuses a
protected target with failure while leaving the machine state untouched, so
in particular the write-enable opcode is never sent for it. -/
theorem protection_levels_and_refusal (L a : Nat) (hL : L < 4) :
    (isProtected L a = decide (a > unprotectedBound L)) ∧
    (unprotectedBound 0 = 0x01FFFF ∧ unprotectedBound 1 = 0x017FFF ∧
     unprotectedBound 2 = 0x00FFFF ∧ unprotectedBound 3 = 0x000000) ∧
    (∀ env chip s, isProtected L a = true → ErasePageM env chip L a s = (MEMFAIL, s)) := by
  refine ⟨rfl, ⟨rfl, rfl, rfl, rfl⟩, fun env chip s hprot => ?_⟩
  simp [ErasePageM, hprot]

/-- C9 witness: level 3 protects everything: address 1 is protected and the
modelled page erase refuses it, leaving the state (and so the byte trace)
unchanged. -/
theorem protection_levels_and_refusal_witness :
    (3 : Nat) < 4 ∧ isProtected 3 1 = true ∧
    ErasePageM allGoodEnv 0 3 1 st0 = (MEMFAIL, st0) :=
  ⟨by decide, by decide,
   (protection_levels_and_refusal 3 1 (by decide)).2.2 allGoodEnv 0 st0 (by decide)⟩

end EEPROM
